import Mathlib

/-!
Shallow embedding of the real-time speech-typing pipeline from
`src/type_speech/engine.py` (class `SpeechToText`), together with proofs of
the specification claims about it.

Modelling conventions:
* Python floats become `ℚ`; `round(x, 2)` becomes `pyRound2` (round half to
  even, Python's documented rounding mode).
* The audio queue holds `Option String` items: `some bytes` is an audio chunk,
  `none` is the end-of-stream sentinel that `stop_recording` pushes.
* Stateful methods become pure functions from an explicit `EngineState`
  (the fields `is_recording`, `is_transcribing`, `audio_queue` of the Python
  object) to a new state plus the list of observable effects (`Event`s:
  log calls, device open/close) or injector actions (`Act`s: clipboard
  writes and key presses).
* Interaction with the outside world (microphone reads, the Google streaming
  response iterator and the exception it may raise) is passed in as an
  explicit script, so each method is a total function of state and script;
  totality models the fact that the method returns normally to its caller.
-/

/-- Log severities of the `loguru` logger as used in `engine.py`. -/
inductive Level
  | debug
  | info
  | warning
  | error
  | critical
deriving DecidableEq, Repr

/-- Observable effects of the capture / transcription methods: log calls and
sounddevice stream open/close. -/
inductive Event
  | log (lvl : Level) (msg : String)
  | deviceOpen
  | deviceClose
deriving DecidableEq, Repr

/-- Observable effects of `type_text` (`press_ctrl_plus` and
`pyperclip.copy`): a clipboard write, a Ctrl+V press, a Ctrl+Z press. -/
inductive Act
  | clip (s : String)
  | pressV
  | pressZ
deriving DecidableEq, Repr

/-- The `Phrase` dataclass of `engine.py`: recognized text, accuracy
(confidence for final / stability for interim), finality flag. -/
structure Phrase where
  text : String
  accuracy : ℚ
  is_final : Bool
deriving DecidableEq, Repr

/-- The shared mutable fields of the `SpeechToText` object that the capture
and transcription methods touch: the two pipeline flags and the audio queue
(`none` entries are the shutdown sentinel). -/
structure EngineState where
  is_recording : Bool
  is_transcribing : Bool
  audio_queue : List (Option String)
deriving DecidableEq, Repr

/-- A single best alternative of a recognition result
(`SpeechRecognitionAlternative`): transcript and confidence. -/
structure RecAlternative where
  transcript : String
  confidence : ℚ
deriving DecidableEq, Repr

/-- A recognition result (`SpeechRecognitionResult`): ranked alternatives,
finality flag, and stability of an interim result. -/
structure RecResult where
  alternatives : List RecAlternative
  is_final : Bool
  stability : ℚ
deriving DecidableEq, Repr

/-- A streaming response: a (possibly empty) list of results. -/
structure RecResponse where
  results : List RecResult
deriving DecidableEq, Repr

/-- How one call of `transcribe_stream` interacts with the backend stream:
either the response iterator yields `rs` and ends normally, or it yields
`rs` and then an exception with text `msg` is raised inside the `try` block
(this also covers an exception raised before any response, with `rs = []`). -/
inductive StreamOutcome
  | normal (rs : List RecResponse)
  | raised (rs : List RecResponse) (msg : String)
deriving DecidableEq, Repr

/-- The responses the backend delivered before the outcome was decided. -/
def StreamOutcome.responses : StreamOutcome → List RecResponse
  | .normal rs => rs
  | .raised rs _ => rs

/-- Python's `needle in hay` substring test on strings. -/
def charsHasSub (needle : List Char) : List Char → Bool
  | [] => needle.isEmpty
  | c :: rest => needle.isPrefixOf (c :: rest) || charsHasSub needle rest

/-- Python's `sub in hay` membership test for strings. -/
def strContains (hay sub : String) : Bool :=
  charsHasSub sub.toList hay.toList

/-- Python's `str.strip()`: drop leading and trailing whitespace. -/
def pyStrip (s : String) : String :=
  ⟨((s.data.dropWhile Char.isWhitespace).reverse.dropWhile Char.isWhitespace).reverse⟩

/-- Python's `str.lower()`: lowercase every character. -/
def pyLower (s : String) : String :=
  ⟨s.data.map Char.toLower⟩

/-- Round a rational to the nearest integer, ties to even — the rounding mode
of Python's built-in `round`.  Computed on the numerator of the fractional
part: with `f = ⌊q⌋` and `rNum = q.num - f * q.den`, the fractional part of
`q` is `rNum / q.den`, so it is below / above / at one half according as
`2 * rNum` is below / above / at `q.den`. -/
def roundHalfEven (q : ℚ) : ℤ :=
  let f : ℤ := q.floor
  let rNum : ℤ := q.num - f * (q.den : ℤ)
  if 2 * rNum < (q.den : ℤ) then f
  else if (q.den : ℤ) < 2 * rNum then f + 1
  else if f % 2 = 0 then f else f + 1

/-- Python's `round(q, 2)`: round to two decimal places, ties to even.
`q * 100` is formed as the fraction `(q.num * 100) / q.den`, which is the
same rational. -/
def pyRound2 (q : ℚ) : ℚ :=
  Rat.divInt (roundHalfEven (Rat.divInt (q.num * 100) (q.den : ℤ))) 100

/-- The response-processing loop of `transcribe_stream`
(`engine.py` lines 181-205): skip responses without results, skip results
without alternatives, and for each remaining result build a `Phrase` from the
best alternative — transcript stripped, `is_final` copied, accuracy
`round(confidence if final else stability, 2)` — and push it. -/
def phrasesOfResponses (rs : List RecResponse) : List Phrase :=
  rs.flatMap fun resp =>
    resp.results.filterMap fun r =>
      match r.alternatives with
      | [] => none
      | alt :: _ =>
          some { text := pyStrip alt.transcript
                 accuracy := pyRound2 (if r.is_final then alt.confidence else r.stability)
                 is_final := r.is_final }

/-- The error classifier of `transcribe_stream` line 211:
`"400" in str(e) and "maximum allowed stream duration" in str(e)`. -/
def streamLimitPattern (msg : String) : Bool :=
  strContains msg "400" && strContains msg "maximum allowed stream duration"

/-- `SpeechToText.transcribe_stream` (`engine.py` lines 147-234) as a function
of the shared state and the stream outcome, returning the new state, the
phrases pushed to the text output queue, and the log events of the guard,
`except` and `finally` blocks.  An early return (transcription already in
progress) changes nothing; otherwise the response loop runs, the `except`
block classifies any raised exception — draining the audio queue only in the
stream-duration-limit case — and the `finally` block clears
`is_transcribing` on every path. -/
def transcribe_stream (st : EngineState) (outcome : StreamOutcome) :
    EngineState × List Phrase × List Event :=
  if st.is_transcribing then
    (st, [], [Event.log .debug "Transcription already in progress, ignoring"])
  else
    let st1 : EngineState := { st with is_transcribing := true }
    match outcome with
    | .normal rs =>
        ({ st1 with is_transcribing := false },
         phrasesOfResponses rs,
         [Event.log .info "Transcription stream completed"])
    | .raised rs msg =>
        if streamLimitPattern msg then
          ({ is_recording := false, is_transcribing := false, audio_queue := [] },
           phrasesOfResponses rs,
           [Event.log .critical ("Critical error in transcription stream: " ++ msg),
            Event.log .info "Recording stopped due to stream duration limit. Ready for new recording.",
            Event.log .info "Transcription stream completed"])
        else
          ({ st1 with is_recording := false, is_transcribing := false },
           phrasesOfResponses rs,
           [Event.log .critical ("Critical error in transcription stream: " ++ msg),
            Event.log .error "Recording stopped due to error. Ready for new recording.",
            Event.log .info "Transcription stream completed"])

/-- `SpeechToText.type_text` (`engine.py` lines 236-262) as a function of the
current `interim_phrase` and the incoming phrase, returning the new
`interim_phrase` and the injector actions performed, in order.  An interim
phrase below the accuracy threshold is dropped; otherwise the clipboard
receives `text + " "`, then: no interim state → paste; matching interim text
(case-insensitive) → skip; otherwise undo then paste.  A final phrase clears
the interim state, an interim phrase becomes the new interim state. -/
def type_text (t : ℚ) (interim : Option Phrase) (p : Phrase) :
    Option Phrase × List Act :=
  if p.is_final = false ∧ p.accuracy < t then
    (interim, [])
  else
    let keys : List Act :=
      match interim with
      | none => [Act.pressV]
      | some ip => if pyLower ip.text = pyLower p.text then [] else [Act.pressZ, Act.pressV]
    ((if p.is_final then none else some p), Act.clip (p.text ++ " ") :: keys)

/-- `SpeechToText._text_input_worker` (`engine.py` lines 297-303): pull items
from the phrase queue, stop at the `None` sentinel, and feed each phrase to
`type_text`.  Returns the final interim state and all actions performed. -/
def textInputWorker (t : ℚ) (interim : Option Phrase) :
    List (Option Phrase) → Option Phrase × List Act
  | [] => (interim, [])
  | none :: _ => (interim, [])
  | some p :: rest =>
      let r1 := type_text t interim p
      let r2 := textInputWorker t r1.1 rest
      (r2.1, r1.2 ++ r2.2)

/-- One observed microphone read inside the capture loop: a chunk (with its
overflow flag) or a read exception. -/
inductive ReadStep
  | chunk (data : String) (overflowed : Bool)
  | failure (msg : String)
deriving DecidableEq, Repr

/-- The environment of one `start_recording` call: whether opening the
sounddevice stream raises, and the successive reads the loop performs while
it observes `is_recording` true.  The end of `reads` models the loop
condition observing `is_recording` false after a concurrent stop. -/
structure CaptureScript where
  openError : Option String
  reads : List ReadStep
deriving DecidableEq, Repr

/-- The `while self.is_recording` loop of `start_recording` (`engine.py`
lines 105-119): each successful read appends its bytes to the audio queue and
logs a warning on overflow; a read exception logs two errors and breaks. -/
def captureLoop : List ReadStep → List (Option String) →
    List (Option String) × List Event
  | [], q => (q, [])
  | .chunk d ov :: rest, q =>
      let r := captureLoop rest (q ++ [some d])
      (r.1, (if ov then [Event.log .warning "Audio buffer overflow detected"] else []) ++ r.2)
  | .failure m :: _, q =>
      (q, [Event.log .error ("Error reading audio from microphone: " ++ m),
           Event.log .error "Microphone may have disconnected or been captured by another application"])

/-- `SpeechToText.start_recording` (`engine.py` lines 76-128): return at once
with a single debug notice if already recording; otherwise set
`is_recording`, open the input device (on failure log errors, clear the flag
and return without any loop), run the capture loop, close the device and
clear the flag. -/
def start_recording (st : EngineState) (script : CaptureScript) :
    EngineState × List Event :=
  if st.is_recording then
    (st, [Event.log .debug "Recording already in progress, ignoring start request"])
  else
    let st1 : EngineState := { st with is_recording := true }
    match script.openError with
    | some e =>
        ({ st1 with is_recording := false },
         [Event.log .info "Initializing sounddevice for recording...",
          Event.log .error ("Failed to open sounddevice stream: " ++ e),
          Event.log .error "Make sure microphone is connected and selected in system, check permissions"])
    | none =>
        let r := captureLoop script.reads st1.audio_queue
        ({ st1 with is_recording := false, audio_queue := r.1 },
         [Event.log .info "Initializing sounddevice for recording...",
          Event.deviceOpen,
          Event.log .info "Sounddevice stream opened for recording",
          Event.log .info "Starting audio recording..."]
         ++ r.2
         ++ [Event.deviceClose, Event.log .info "Recording stopped"])

/-- `SpeechToText.stop_recording` (`engine.py` lines 130-139): no-op with a
debug notice when not recording; otherwise clear `is_recording` and push the
`None` sentinel onto the audio queue. -/
def stop_recording (st : EngineState) : EngineState × List Event :=
  if st.is_recording = false then
    (st, [Event.log .debug "Recording not in progress, ignoring stop request"])
  else
    ({ st with is_recording := false, audio_queue := st.audio_queue ++ [none] },
     [Event.log .info "Stop recording signal sent"])

/-- Invariant of the injector state: `interim_phrase`, when set, holds a
non-final phrase that passed the accuracy threshold. -/
def acceptedInterim (t : ℚ) : Option Phrase → Bool
  | none => true
  | some p => !p.is_final && !(decide (p.accuracy < t))

/-! ## Helper lemmas -/

/-- A value produced by pyRound2 times 100 is the integer it was rounded to. -/
theorem pyRound2_mul_hundred (q : ℚ) :
    pyRound2 q * 100 = ((roundHalfEven (Rat.divInt (q.num * 100) (q.den : ℤ))) : ℚ) := by
  rw [pyRound2, Rat.divInt_eq_div]
  push_cast
  field_simp

/-- One `type_text` step preserves the interim-state invariant: the stored
phrase, if any, is a non-final phrase at or above the threshold. -/
theorem acceptedInterim_type_text (t : ℚ) (st : Option Phrase) (p : Phrase)
    (h : acceptedInterim t st = true) :
    acceptedInterim t (type_text t st p).1 = true := by
  by_cases hd : p.is_final = false ∧ p.accuracy < t
  · simpa [type_text, hd] using h
  · by_cases hf : p.is_final = true
    · simp [type_text, hd, hf, acceptedInterim]
    · have hf2 : p.is_final = false := by simpa using hf
      have hna : ¬ (p.accuracy < t) := fun ha => hd ⟨hf2, ha⟩
      simp [type_text, hd, hf2, acceptedInterim, hna]

/-! ## Claim theorems -/

/-- Claim C1: for the phrase sequence interim "he", interim "hell",
final "hello" 0.9 (all at or above the accuracy threshold, starting from an
empty interim state) delivered to `type_text` in that order, the injector
performs exactly clipboard+paste of "he ", then clipboard+undo+paste of
"hell ", then clipboard+undo+paste of "hello ", in that order, and the
interim state is set after each interim phrase and cleared only after the
final one. -/
theorem c1_scripted_sequence_ordering (t a1 a2 : ℚ)
    (h1 : t ≤ a1) (h2 : t ≤ a2) (_h3 : t ≤ Rat.divInt 9 10) :
    type_text t none ⟨"he", a1, false⟩ =
      (some ⟨"he", a1, false⟩, [Act.clip "he ", Act.pressV]) ∧
    type_text t (some ⟨"he", a1, false⟩) ⟨"hell", a2, false⟩ =
      (some ⟨"hell", a2, false⟩, [Act.clip "hell ", Act.pressZ, Act.pressV]) ∧
    type_text t (some ⟨"hell", a2, false⟩) ⟨"hello", Rat.divInt 9 10, true⟩ =
      (none, [Act.clip "hello ", Act.pressZ, Act.pressV]) ∧
    textInputWorker t none [some ⟨"he", a1, false⟩, some ⟨"hell", a2, false⟩,
        some ⟨"hello", Rat.divInt 9 10, true⟩] =
      (none, [Act.clip "he ", Act.pressV, Act.clip "hell ", Act.pressZ, Act.pressV,
              Act.clip "hello ", Act.pressZ, Act.pressV]) := by
  have n1 : ¬ (a1 < t) := not_lt.mpr h1
  have n2 : ¬ (a2 < t) := not_lt.mpr h2
  have e1 : ¬ (pyLower "he" = pyLower "hell") := by decide
  have e2 : ¬ (pyLower "hell" = pyLower "hello") := by decide
  refine ⟨?_, ?_, ?_, ?_⟩
  · simp [type_text, n1]
  · simp [type_text, n2, e1]
  · simp [type_text, e2]
  · simp [textInputWorker, type_text, n1, n2, e1, e2]

/-- Witness for C1 at threshold 0.7 and interim accuracies 0.8. -/
theorem c1_scripted_sequence_ordering_witness :
    type_text (Rat.divInt 7 10) none ⟨"he", Rat.divInt 8 10, false⟩ =
      (some ⟨"he", Rat.divInt 8 10, false⟩, [Act.clip "he ", Act.pressV]) ∧
    type_text (Rat.divInt 7 10) (some ⟨"he", Rat.divInt 8 10, false⟩)
        ⟨"hell", Rat.divInt 8 10, false⟩ =
      (some ⟨"hell", Rat.divInt 8 10, false⟩, [Act.clip "hell ", Act.pressZ, Act.pressV]) ∧
    type_text (Rat.divInt 7 10) (some ⟨"hell", Rat.divInt 8 10, false⟩)
        ⟨"hello", Rat.divInt 9 10, true⟩ =
      (none, [Act.clip "hello ", Act.pressZ, Act.pressV]) ∧
    textInputWorker (Rat.divInt 7 10) none [some ⟨"he", Rat.divInt 8 10, false⟩,
        some ⟨"hell", Rat.divInt 8 10, false⟩, some ⟨"hello", Rat.divInt 9 10, true⟩] =
      (none, [Act.clip "he ", Act.pressV, Act.clip "hell ", Act.pressZ, Act.pressV,
              Act.clip "hello ", Act.pressZ, Act.pressV]) :=
  c1_scripted_sequence_ordering (Rat.divInt 7 10) (Rat.divInt 8 10) (Rat.divInt 8 10)
    (by decide) (by decide) (by decide)

/-- Claim C2, counterexample: an exception whose text contains
"maximum allowed stream duration" but not "400" takes the other-error branch
of the handler, so with a non-empty audio queue the queue is NOT left empty,
and the info-level recovery notice is not logged — contradicting the claim
as stated. -/
theorem c2_stream_limit_counterexample :
    (transcribe_stream ⟨true, false, [some "chunk"]⟩
        (.raised [] "maximum allowed stream duration")).1.audio_queue = [some "chunk"] ∧
    Event.log .info "Recording stopped due to stream duration limit. Ready for new recording."
      ∉ (transcribe_stream ⟨true, false, [some "chunk"]⟩
        (.raised [] "maximum allowed stream duration")).2.2 := by decide

/-- Claim C2, amended: for every exception raised inside `transcribe_stream`
whose text contains BOTH "400" and "maximum allowed stream duration", the
handler leaves `is_recording` and `is_transcribing` false, empties the audio
queue, and logs the recovery notice at info level; the method returns
normally (the function is total), so nothing propagates to the caller. -/
theorem c2_stream_limit_recovery_amended (st : EngineState)
    (rs : List RecResponse) (msg : String)
    (h : st.is_transcribing = false)
    (h4 : strContains msg "400" = true)
    (hm : strContains msg "maximum allowed stream duration" = true) :
    (transcribe_stream st (.raised rs msg)).1 = ⟨false, false, []⟩ ∧
    Event.log .info "Recording stopped due to stream duration limit. Ready for new recording."
      ∈ (transcribe_stream st (.raised rs msg)).2.2 := by
  have hp : streamLimitPattern msg = true := by
    simp [streamLimitPattern, h4, hm]
  simp [transcribe_stream, h, hp]

/-- Witness for the amended C2 at the real backend error text. -/
theorem c2_stream_limit_recovery_amended_witness :
    (transcribe_stream ⟨true, false, [some "chunk"]⟩
        (.raised [] "400 Exceeded maximum allowed stream duration of 305 seconds")).1 =
      ⟨false, false, []⟩ ∧
    Event.log .info "Recording stopped due to stream duration limit. Ready for new recording."
      ∈ (transcribe_stream ⟨true, false, [some "chunk"]⟩
        (.raised [] "400 Exceeded maximum allowed stream duration of 305 seconds")).2.2 :=
  c2_stream_limit_recovery_amended ⟨true, false, [some "chunk"]⟩ []
    "400 Exceeded maximum allowed stream duration of 305 seconds" rfl (by decide) (by decide)

/-- Claim C3, counterexample: for a non-stream-limit error ("network
unreachable") raised with a non-empty audio queue, the handler leaves the
queue unchanged — it does NOT perform the queue drain of the stream-limit
case, contradicting "identical full reset ... and the audio queue drained". -/
theorem c3_other_error_counterexample :
    (transcribe_stream ⟨true, false, [some "chunk"]⟩
        (.raised [] "network unreachable")).1.audio_queue = [some "chunk"] := by decide

/-- Claim C3, amended: for every exception raised inside `transcribe_stream`
that is not a stream-duration-limit error, the handler clears both
`is_recording` and `is_transcribing` like the stream-limit case and logs at
error (higher) severity, and the method returns normally; unlike the
stream-limit case the audio queue is NOT drained but left unchanged. -/
theorem c3_other_error_reset_amended (st : EngineState)
    (rs : List RecResponse) (msg : String)
    (h : st.is_transcribing = false)
    (hm : streamLimitPattern msg = false) :
    (transcribe_stream st (.raised rs msg)).1.is_recording = false ∧
    (transcribe_stream st (.raised rs msg)).1.is_transcribing = false ∧
    (transcribe_stream st (.raised rs msg)).1.audio_queue = st.audio_queue ∧
    Event.log .error "Recording stopped due to error. Ready for new recording."
      ∈ (transcribe_stream st (.raised rs msg)).2.2 := by
  simp [transcribe_stream, h, hm]

/-- Witness for the amended C3 at a concrete network error. -/
theorem c3_other_error_reset_amended_witness :
    (transcribe_stream ⟨true, false, [some "chunk"]⟩
        (.raised [] "network unreachable")).1.is_recording = false ∧
    (transcribe_stream ⟨true, false, [some "chunk"]⟩
        (.raised [] "network unreachable")).1.is_transcribing = false ∧
    (transcribe_stream ⟨true, false, [some "chunk"]⟩
        (.raised [] "network unreachable")).1.audio_queue =
      (⟨true, false, [some "chunk"]⟩ : EngineState).audio_queue ∧
    Event.log .error "Recording stopped due to error. Ready for new recording."
      ∈ (transcribe_stream ⟨true, false, [some "chunk"]⟩
        (.raised [] "network unreachable")).2.2 :=
  c3_other_error_reset_amended ⟨true, false, [some "chunk"]⟩ [] "network unreachable"
    rfl (by decide)

/-- Claim C4: every phrase pushed by `transcribe_stream` comes from some
result of some delivered response, its text is the best (first) alternative's
transcript stripped of surrounding whitespace, `is_final` is copied from the
result, and its accuracy is the confidence (final) or stability (interim)
rounded to exactly two decimal places — in particular 100 times the accuracy
is an integer, whatever the input precision. -/
theorem c4_phrase_construction (st : EngineState) (outcome : StreamOutcome)
    (p : Phrase) (hp : p ∈ (transcribe_stream st outcome).2.1) :
    ∃ resp ∈ outcome.responses, ∃ r ∈ resp.results, ∃ alt,
      r.alternatives.head? = some alt ∧
      p.text = pyStrip alt.transcript ∧
      p.is_final = r.is_final ∧
      p.accuracy = pyRound2 (if r.is_final then alt.confidence else r.stability) ∧
      ∃ m : ℤ, p.accuracy * 100 = (m : ℚ) := by
  have hp2 : p ∈ phrasesOfResponses outcome.responses := by
    by_cases h : st.is_transcribing = true
    · simp [transcribe_stream, h] at hp
    · have h2 : st.is_transcribing = false := by simpa using h
      cases outcome with
      | normal rs => simpa [transcribe_stream, h2, StreamOutcome.responses] using hp
      | raised rs msg =>
          by_cases hl : streamLimitPattern msg = true
          · simpa [transcribe_stream, h2, hl, StreamOutcome.responses] using hp
          · simpa [transcribe_stream, h2, hl, StreamOutcome.responses] using hp
  rw [phrasesOfResponses] at hp2
  rcases List.mem_flatMap.mp hp2 with ⟨resp, hresp, hmem⟩
  rcases List.mem_filterMap.mp hmem with ⟨r, hr, heq⟩
  refine ⟨resp, hresp, r, hr, ?_⟩
  cases halts : r.alternatives with
  | nil => rw [halts] at heq; simp at heq
  | cons alt rest =>
      rw [halts] at heq
      simp only [Option.some.injEq] at heq
      refine ⟨alt, by simp [halts], ?_, ?_, ?_, ?_⟩
      · rw [← heq]
      · rw [← heq]
      · rw [← heq]
      · refine ⟨roundHalfEven (Rat.divInt
            ((if r.is_final then alt.confidence else r.stability).num * 100)
            ((if r.is_final then alt.confidence else r.stability).den : ℤ)), ?_⟩
        rw [← heq]
        exact pyRound2_mul_hundred _

/-- Witness for C4: the interim result " hello " with stability 0.8333 yields
the phrase "hello" with accuracy 0.83. -/
theorem c4_phrase_construction_witness :
    ∃ resp ∈ (StreamOutcome.normal
        [⟨[⟨[⟨" hello ", 0⟩], false, Rat.divInt 8333 10000⟩]⟩]).responses,
      ∃ r ∈ resp.results, ∃ alt,
        r.alternatives.head? = some alt ∧
        (⟨"hello", Rat.divInt 83 100, false⟩ : Phrase).text = pyStrip alt.transcript ∧
        (⟨"hello", Rat.divInt 83 100, false⟩ : Phrase).is_final = r.is_final ∧
        (⟨"hello", Rat.divInt 83 100, false⟩ : Phrase).accuracy =
          pyRound2 (if r.is_final then alt.confidence else r.stability) ∧
        ∃ m : ℤ, (⟨"hello", Rat.divInt 83 100, false⟩ : Phrase).accuracy * 100 = (m : ℚ) :=
  c4_phrase_construction ⟨false, false, []⟩
    (StreamOutcome.normal [⟨[⟨[⟨" hello ", 0⟩], false, Rat.divInt 8333 10000⟩]⟩])
    ⟨"hello", Rat.divInt 83 100, false⟩ (by decide)

/-- Claim C5: an interim phrase with accuracy strictly below the threshold is
dropped by `type_text` with no clipboard write, no key press, and the interim
state unchanged. -/
theorem c5_threshold_drop (t : ℚ) (st : Option Phrase) (p : Phrase)
    (hf : p.is_final = false) (ha : p.accuracy < t) :
    type_text t st p = (st, []) := by
  simp [type_text, hf, ha]

/-- Witness for C5 at threshold 1 and accuracy 0. -/
theorem c5_threshold_drop_witness :
    type_text 1 none ⟨"hi", 0, false⟩ = (none, []) :=
  c5_threshold_drop 1 none ⟨"hi", 0, false⟩ rfl (by decide)

/-- Claim C6: two consecutive accepted interim phrases with case-insensitively
equal text trigger at most one paste and at most one undo in total, and the
second phrase produces no paste and no undo key press at all. -/
theorem c6_duplicate_suppression (t : ℚ) (st : Option Phrase) (p1 p2 : Phrase)
    (h1f : p1.is_final = false) (h2f : p2.is_final = false)
    (h1a : t ≤ p1.accuracy) (h2a : t ≤ p2.accuracy)
    (heq : pyLower p1.text = pyLower p2.text) :
    Act.pressV ∉ (type_text t (type_text t st p1).1 p2).2 ∧
    Act.pressZ ∉ (type_text t (type_text t st p1).1 p2).2 ∧
    ((type_text t st p1).2 ++ (type_text t (type_text t st p1).1 p2).2).count Act.pressV ≤ 1 ∧
    ((type_text t st p1).2 ++ (type_text t (type_text t st p1).1 p2).2).count Act.pressZ ≤ 1 := by
  have n1 : ¬ (p1.accuracy < t) := not_lt.mpr h1a
  have n2 : ¬ (p2.accuracy < t) := not_lt.mpr h2a
  have hst1 : (type_text t st p1).1 = some p1 := by
    simp [type_text, h1f, n1]
  have hsnd : (type_text t (type_text t st p1).1 p2).2 = [Act.clip (p2.text ++ " ")] := by
    rw [hst1]; simp [type_text, h2f, n2, heq]
  have hfst : (type_text t st p1).2.count Act.pressV ≤ 1 ∧
      (type_text t st p1).2.count Act.pressZ ≤ 1 := by
    cases st with
    | none => simp [type_text, h1f, n1]
    | some ip =>
        by_cases he : pyLower ip.text = pyLower p1.text
        · simp [type_text, h1f, n1, he]
        · simp [type_text, h1f, n1, he]
  refine ⟨by simp [hsnd], by simp [hsnd], ?_, ?_⟩
  · rw [List.count_append, hsnd]
    simpa using hfst.1
  · rw [List.count_append, hsnd]
    simpa using hfst.2

/-- Witness for C6: "Hi" then "hi", both accepted at threshold 0.7. -/
theorem c6_duplicate_suppression_witness :
    Act.pressV ∉ (type_text (Rat.divInt 7 10)
        (type_text (Rat.divInt 7 10) none ⟨"Hi", Rat.divInt 8 10, false⟩).1
        ⟨"hi", Rat.divInt 9 10, false⟩).2 ∧
    Act.pressZ ∉ (type_text (Rat.divInt 7 10)
        (type_text (Rat.divInt 7 10) none ⟨"Hi", Rat.divInt 8 10, false⟩).1
        ⟨"hi", Rat.divInt 9 10, false⟩).2 ∧
    ((type_text (Rat.divInt 7 10) none ⟨"Hi", Rat.divInt 8 10, false⟩).2 ++
      (type_text (Rat.divInt 7 10)
        (type_text (Rat.divInt 7 10) none ⟨"Hi", Rat.divInt 8 10, false⟩).1
        ⟨"hi", Rat.divInt 9 10, false⟩).2).count Act.pressV ≤ 1 ∧
    ((type_text (Rat.divInt 7 10) none ⟨"Hi", Rat.divInt 8 10, false⟩).2 ++
      (type_text (Rat.divInt 7 10)
        (type_text (Rat.divInt 7 10) none ⟨"Hi", Rat.divInt 8 10, false⟩).1
        ⟨"hi", Rat.divInt 9 10, false⟩).2).count Act.pressZ ≤ 1 :=
  c6_duplicate_suppression (Rat.divInt 7 10) none ⟨"Hi", Rat.divInt 8 10, false⟩
    ⟨"hi", Rat.divInt 9 10, false⟩ rfl rfl (by decide) (by decide) (by decide)

/-- Claim C7: on every exit path of `transcribe_stream` that actually entered
the stream loop — normal completion, stream-limit error, or any other
exception — `is_transcribing` is false when the method returns, by the
guaranteed finally step. -/
theorem c7_transcribing_cleared (st : EngineState) (outcome : StreamOutcome)
    (h : st.is_transcribing = false) :
    (transcribe_stream st outcome).1.is_transcribing = false := by
  cases outcome with
  | normal rs => simp [transcribe_stream, h]
  | raised rs msg =>
      by_cases hl : streamLimitPattern msg = true
      · simp [transcribe_stream, h, hl]
      · simp [transcribe_stream, h, hl]

/-- Witness for C7 on an exception exit path. -/
theorem c7_transcribing_cleared_witness :
    (transcribe_stream ⟨true, false, []⟩ (.raised [] "boom")).1.is_transcribing = false :=
  c7_transcribing_cleared ⟨true, false, []⟩ (.raised [] "boom") rfl

/-- Claim C8: `start_recording` while already recording returns before any
device open with only the single already-in-progress debug notice and the
state unchanged, and `stop_recording` while not recording is a no-op that
pushes no sentinel (state, including the audio queue, unchanged). -/
theorem c8_idempotent_start_stop :
    (∀ (st : EngineState) (script : CaptureScript), st.is_recording = true →
       start_recording st script =
         (st, [Event.log .debug "Recording already in progress, ignoring start request"])) ∧
    (∀ st : EngineState, st.is_recording = false →
       stop_recording st =
         (st, [Event.log .debug "Recording not in progress, ignoring stop request"])) := by
  constructor
  · intro st script h
    simp [start_recording, h]
  · intro st h
    simp [stop_recording, h]

/-- Witness for C8 at concrete states. -/
theorem c8_idempotent_start_stop_witness :
    start_recording ⟨true, false, []⟩ ⟨none, []⟩ =
      (⟨true, false, []⟩,
       [Event.log .debug "Recording already in progress, ignoring start request"]) ∧
    stop_recording ⟨false, false, []⟩ =
      (⟨false, false, []⟩,
       [Event.log .debug "Recording not in progress, ignoring stop request"]) :=
  ⟨c8_idempotent_start_stop.1 ⟨true, false, []⟩ ⟨none, []⟩ rfl,
   c8_idempotent_start_stop.2 ⟨false, false, []⟩ rfl⟩

/-- Claim C9, counterexample: after an accepted interim phrase followed by
the pipeline-stop sentinel, the text-input worker exits with the interim
state still set — pipeline stop does not clear it, contradicting "after
stop_recording completes and the pipeline has stopped, InterimState is null
again". -/
theorem c9_interim_counterexample :
    (textInputWorker (Rat.divInt 7 10) none
      [some ⟨"he", Rat.divInt 9 10, false⟩, none]).1 ≠ none := by decide

/-- Claim C9, amended: the interim state is non-null only while it holds an
accepted interim phrase — non-final and at or above the threshold — not yet
superseded by a final phrase; pipeline stop does not clear it, so it may
remain set after the worker consumes the shutdown sentinel. -/
theorem c9_interim_invariant_amended (t : ℚ) (st : Option Phrase)
    (items : List (Option Phrase))
    (h : acceptedInterim t st = true) :
    acceptedInterim t (textInputWorker t st items).1 = true := by
  induction items generalizing st with
  | nil => simpa [textInputWorker] using h
  | cons it rest ih =>
      cases it with
      | none => simpa [textInputWorker] using h
      | some p =>
          rw [textInputWorker]
          exact ih _ (acceptedInterim_type_text t st p h)

/-- Witness for the amended C9: an interim then a final phrase, ending with
an empty (hence trivially accepted) interim state. -/
theorem c9_interim_invariant_amended_witness :
    acceptedInterim (Rat.divInt 7 10)
      (textInputWorker (Rat.divInt 7 10) none
        [some ⟨"he", Rat.divInt 9 10, false⟩,
         some ⟨"hello", Rat.divInt 9 10, true⟩]).1 = true :=
  c9_interim_invariant_amended (Rat.divInt 7 10) none
    [some ⟨"he", Rat.divInt 9 10, false⟩, some ⟨"hello", Rat.divInt 9 10, true⟩] (by decide)

/-- Claim C10, counterexample: a final phrase with accuracy 0 whose text
matches the current interim phrase case-insensitively writes the clipboard
but performs neither a paste nor an undo — the claim's "still writes the
clipboard and pastes (or undo-pastes)" fails at this input. -/
theorem c10_final_paste_counterexample :
    Act.pressV ∉ (type_text (Rat.divInt 7 10)
        (some ⟨"hello", Rat.divInt 9 10, false⟩) ⟨"hello", 0, true⟩).2 ∧
    Act.pressZ ∉ (type_text (Rat.divInt 7 10)
        (some ⟨"hello", Rat.divInt 9 10, false⟩) ⟨"hello", 0, true⟩).2 := by decide

/-- Claim C10, amended: every final phrase is processed regardless of
accuracy — the threshold filters only interim phrases.  The clipboard always
receives the text plus a space and the interim state is cleared; the text is
pasted (empty interim state) or undo-pasted (different interim text) unless
the current interim text matches case-insensitively, in which case only the
clipboard write happens. -/
theorem c10_final_always_injected_amended (t : ℚ) (st : Option Phrase)
    (p : Phrase) (hf : p.is_final = true) :
    (type_text t st p).1 = none ∧
    Act.clip (p.text ++ " ") ∈ (type_text t st p).2 ∧
    (st = none → (type_text t st p).2 = [Act.clip (p.text ++ " "), Act.pressV]) ∧
    (∀ ip, st = some ip → ¬ (pyLower ip.text = pyLower p.text) →
      (type_text t st p).2 = [Act.clip (p.text ++ " "), Act.pressZ, Act.pressV]) ∧
    (∀ ip, st = some ip → pyLower ip.text = pyLower p.text →
      (type_text t st p).2 = [Act.clip (p.text ++ " ")]) := by
  cases st with
  | none => simp [type_text, hf]
  | some ip =>
      by_cases he : pyLower ip.text = pyLower p.text
      · simp [type_text, hf, he]
      · simp [type_text, hf, he]

/-- Witness for the amended C10: a final phrase with accuracy 0 and empty
interim state is still clipboard-written and its interim state cleared. -/
theorem c10_final_always_injected_amended_witness :
    (type_text 1 none ⟨"hi", 0, true⟩).1 = none ∧
    Act.clip ("hi" ++ " ") ∈ (type_text 1 none ⟨"hi", 0, true⟩).2 :=
  ⟨(c10_final_always_injected_amended 1 none ⟨"hi", 0, true⟩ rfl).1,
   (c10_final_always_injected_amended 1 none ⟨"hi", 0, true⟩ rfl).2.1⟩
